import Mathlib

/-!
Verification development for the Orion Sentinel SOAR core: the playbook
matching and action-dispatch engine. The repository contains two parallel
implementations of this core:

* variant `V1`, from `src/orion_ai/soar/` (pydantic models: `models.py`,
  `engine.py`, `actions.py`, `service.py`);
* variant `V2`, from `stacks/ai/src/orion_ai/soar/` (dataclass models:
  `models.py`, `engine.py`, `actions.py`, `service.py`), together with the
  `Event` data contract from `stacks/ai/src/orion_ai/core/models.py`.

Python runtime values that can appear in event field trees, condition values
and action parameters are modelled by the inductive type `Val`. Python
numbers (int and float) are modelled as rationals, which matches the exact
semantics of every numeric literal appearing in the configuration and in
the testable scenarios of the specification. Python `None` is `Val.none`.
Fallible Python code (comparisons that may raise `TypeError`, condition
evaluation, playbook matching) is modelled in the `Except String` monad.
-/

namespace Orion

/-- Model of a Python value as stored in event field trees, condition
values and action parameters: `None`, a number (int or float, modelled as
an exact rational), a string, a list, or a string-keyed dict (modelled as
an association list in insertion order). -/
inductive Val where
  | none : Val
  | num : ℚ → Val
  | str : String → Val
  | list : List Val → Val
  | dict : List (String × Val) → Val

mutual

/-- Python `==` on modelled values. Values of different types compare
unequal (Python returns `False` rather than raising); numbers compare by
exact value, which matches Python `int`/`float` cross-type equality;
lists and dicts compare structurally. (Python dict equality is
key-based rather than order-based; the difference is not exercised by
any playbook configuration in the repository.) -/
def pyEq : Val → Val → Bool
  | Val.none, Val.none => true
  | Val.num a, Val.num b => a == b
  | Val.str a, Val.str b => a == b
  | Val.list a, Val.list b => pyEqList a b
  | Val.dict a, Val.dict b => pyEqDict a b
  | _, _ => false

/-- Elementwise Python `==` on lists. -/
def pyEqList : List Val → List Val → Bool
  | [], [] => true
  | a :: as, b :: bs => pyEq a b && pyEqList as bs
  | _, _ => false

/-- Entrywise Python `==` on dicts in insertion order. -/
def pyEqDict : List (String × Val) → List (String × Val) → Bool
  | [], [] => true
  | (k1, v1) :: as, (k2, v2) :: bs => k1 == k2 && pyEq v1 v2 && pyEqDict as bs
  | _, _ => false

end

instance : BEq Val := ⟨pyEq⟩

/-- Splitting a character list at every dot, mirroring the semantics of
Python `str.split(".")`: the empty string yields one empty segment, and
consecutive dots yield empty segments. Defined structurally so that the
kernel can evaluate it on concrete paths. -/
def splitDots : List Char → List (List Char)
  | [] => [[]]
  | c :: cs =>
      if c = '.' then [] :: splitDots cs
      else
        match splitDots cs with
        | h :: t => (c :: h) :: t
        | [] => [[c]]

/-- Python `field_path.split(".")`. -/
def splitPath (s : String) : List String :=
  (splitDots s.toList).map (fun cs => String.mk cs)

/-- Whether the second character list occurs at the start of the first. -/
def charsStartWith : List Char → List Char → Bool
  | _, [] => true
  | [], _ :: _ => false
  | a :: as, b :: bs => a == b && charsStartWith as bs

/-- Whether the second character list occurs contiguously inside the
first (Python substring containment). -/
def charsContain : List Char → List Char → Bool
  | [], needle => needle.isEmpty
  | c :: rest, needle => charsStartWith (c :: rest) needle || charsContain rest needle

/-- Python substring test `needle in hay`. -/
def strContains (hay needle : String) : Bool :=
  charsContain hay.toList needle.toList

/-- Python `str(value)`. String rendering of numbers and containers is
approximated (no playbook in the repository applies `contains` to a
non-string field value, so the rendering is never load-bearing). -/
def pyStr : Val → String
  | Val.none => "None"
  | Val.num q => toString q.num ++ "/" ++ toString q.den
  | Val.str s => s
  | Val.list _ => "<list>"
  | Val.dict _ => "<dict>"

/-- Python truthiness of a modelled value, as used by `if not x:` checks. -/
def pyTruthy : Val → Bool
  | Val.none => false
  | Val.num q => decide (q ≠ 0)
  | Val.str s => !s.isEmpty
  | Val.list xs => !xs.isEmpty
  | Val.dict m => !m.isEmpty

/-- First binding of a key in a dict, or `Option.none` when the key is
absent. Python dict keys are unique, so first-match lookup is faithful. -/
def dictFind : List (String × Val) → String → Option Val
  | [], _ => Option.none
  | (k, v) :: rest, key => if k = key then Option.some v else dictFind rest key

/-- Python `d.get(key)`: the stored value, or `None` when absent. A stored
`None` and an absent key are indistinguishable in the result, exactly as
in Python. -/
def dictGet (entries : List (String × Val)) (key : String) : Val :=
  (dictFind entries key).getD Val.none

/-- Python `d.get(key, default)`: the stored value when the key is
present (even when the stored value is `None`), else the default. -/
def dictGetD (entries : List (String × Val)) (key : String) (default : Val) : Val :=
  (dictFind entries key).getD default

/-- Python `<` on modelled values: numbers and strings compare natively;
any other combination raises `TypeError`. (Python also orders lists
elementwise; no playbook or event in the repository compares lists, so
that case is folded into the error branch.) -/
def pyLt : Val → Val → Except String Bool
  | Val.num a, Val.num b => Except.ok (decide (a < b))
  | Val.str a, Val.str b => Except.ok (decide (a < b))
  | _, _ => Except.error "TypeError: unsupported comparison between mismatched types"

/-- Python `<=` on modelled values, with the same raising behaviour as
`pyLt`. -/
def pyLe : Val → Val → Except String Bool
  | Val.num a, Val.num b => Except.ok (decide (a ≤ b))
  | Val.str a, Val.str b => Except.ok (decide (a ≤ b))
  | _, _ => Except.error "TypeError: unsupported comparison between mismatched types"

/-- Python `target_value in str(field_value)`: substring containment after
stringifying the field value. A non-string target raises `TypeError`. -/
def pyContains (field_value target_value : Val) : Except String Bool :=
  match target_value with
  | Val.str t => Except.ok (strContains (pyStr field_value) t)
  | _ => Except.error "TypeError: in requires string as left operand"

/-- Python `field_value in target_value`: membership by `==` in a list,
substring test in a string, key membership in a dict; a non-container
target raises `TypeError`, and an unhashable field value raises on dict
membership. -/
def pyIn (field_value target_value : Val) : Except String Bool :=
  match target_value with
  | Val.list xs => Except.ok (xs.any (fun x => pyEq x field_value))
  | Val.str t =>
      match field_value with
      | Val.str f => Except.ok (strContains t f)
      | _ => Except.error "TypeError: in requires string as left operand"
  | Val.dict m =>
      match field_value with
      | Val.str f => Except.ok (m.any (fun kv => kv.1 == f))
      | Val.list _ => Except.error "TypeError: unhashable type"
      | Val.dict _ => Except.error "TypeError: unhashable type"
      | _ => Except.ok false
  | _ => Except.error "TypeError: argument is not iterable"

/-- Serialization of a Python `Optional[str]`. -/
def optStr : Option String → Val
  | Option.some s => Val.str s
  | Option.none => Val.none

/-- Types of SOAR actions; the same five-member enum appears in both
variants (`ActionType` in each `models.py`). -/
inductive ActionType where
  | BLOCK_DOMAIN
  | TAG_DEVICE
  | SEND_NOTIFICATION
  | SIMULATE_ONLY
  | LOG_EVENT
deriving DecidableEq

/-- Outcome of reading and parsing a playbook configuration file, the
input consumed by `load_playbooks_from_file` (V1) and `reload_playbooks`
(V2): the file may be missing, may fail to open or parse (the message of
the raised exception), or may parse to either no `playbooks` key or a
list of per-playbook parse results (`Playbook(**data)` resp.
`Playbook.from_dict(data)` may fail on an individual entry). -/
inductive FileRead (α : Type) where
  | missing : FileRead α
  | parse_error : String → FileRead α
  | parsed : Option (List (Except String α)) → FileRead α

end Orion

namespace Orion.V1

/-!
Variant `V1`: `src/orion_ai/soar/models.py` and `engine.py`.
-/

/-- Operators for condition evaluation (`ConditionOperator` in
`models.py`; the `and`/`or` members fall through `_compare` to `False`). -/
inductive ConditionOperator where
  | EQUALS
  | NOT_EQUALS
  | GREATER_THAN
  | GREATER_THAN_OR_EQUAL
  | LESS_THAN
  | LESS_THAN_OR_EQUAL
  | CONTAINS
  | IN
  | AND
  | OR
deriving DecidableEq

/-- `EventRef` from `models.py`: reference to an event in log storage.
The pydantic `EventType` enum field is modelled by its string value, and
the `datetime` timestamp is modelled as an opaque `Val` (no condition in
the repository compares timestamps). -/
structure EventRef where
  event_type : String
  timestamp : Val
  labels : List (String × String) := []
  fields : List (String × Val) := []
  source : String := "loki"
  stream_id : Option String := Option.none

/-- The pydantic serialization `event.dict()` used by condition field
resolution: a dict with the six declared attributes as top-level keys. -/
def EventRef.dict (e : EventRef) : Val :=
  Val.dict
    [("event_type", Val.str e.event_type),
     ("timestamp", e.timestamp),
     ("labels", Val.dict (e.labels.map (fun kv => (kv.1, Val.str kv.2)))),
     ("fields", Val.dict e.fields),
     ("source", Val.str e.source),
     ("stream_id", optStr e.stream_id)]

/-- `Condition` from `models.py`. -/
structure Condition where
  field : String
  operator : ConditionOperator
  value : Val
  negate : Bool := false

/-- The traversal loop of `Condition._get_field_value`: walk the parts,
descending only through dicts that contain the current part, returning
Python `None` as soon as a part is absent or the current value is not a
dict. -/
def get_field_value_go : List String → Val → Val
  | [], current => current
  | part :: rest, current =>
      match current with
      | Val.dict entries =>
          match dictFind entries part with
          | Option.some v => get_field_value_go rest v
          | Option.none => Val.none
      | _ => Val.none

/-- `Condition._get_field_value`: extract a field value from the
serialized event using dot notation. -/
def get_field_value (event : EventRef) (field_path : String) : Val :=
  get_field_value_go (splitPath field_path) (EventRef.dict event)

/-- `Condition._compare`: compare field value with target using the
operator. Comparison operators may raise `TypeError`, which the engine
catches; the `and`/`or` members fall through to `False`. -/
def compare (field_value : Val) (operator : ConditionOperator) (target_value : Val) :
    Except String Bool :=
  match operator with
  | ConditionOperator.EQUALS => Except.ok (pyEq field_value target_value)
  | ConditionOperator.NOT_EQUALS => Except.ok (!pyEq field_value target_value)
  | ConditionOperator.GREATER_THAN => pyLt target_value field_value
  | ConditionOperator.GREATER_THAN_OR_EQUAL => pyLe target_value field_value
  | ConditionOperator.LESS_THAN => pyLt field_value target_value
  | ConditionOperator.LESS_THAN_OR_EQUAL => pyLe field_value target_value
  | ConditionOperator.CONTAINS => pyContains field_value target_value
  | ConditionOperator.IN => pyIn field_value target_value
  | ConditionOperator.AND => Except.ok false
  | ConditionOperator.OR => Except.ok false

/-- `Condition.evaluate`: resolve the field; a missing field returns the
`negate` flag directly; otherwise compare and apply `negate` to the
result. Exceptions escaping `_compare` propagate to the caller. -/
def Condition.evaluate (self : Condition) (event : EventRef) : Except String Bool :=
  match get_field_value event self.field with
  | Val.none => Except.ok self.negate
  | field_value =>
      match compare field_value self.operator self.value with
      | Except.ok result => Except.ok (if self.negate then !result else result)
      | Except.error e => Except.error e

/-- `Action` from `models.py`. -/
structure Action where
  action_type : ActionType
  parameters : List (String × Val) := []
  description : String := ""

/-- `Playbook` from `models.py`. In the source `match_event_type` is the
pydantic `EventType` enum (so only its seven member strings are
constructible; there is no wildcard member); it is modelled by its string
value. -/
structure Playbook where
  id : String
  name : String
  description : String := ""
  enabled : Bool := true
  match_event_type : String
  conditions : List Condition := []
  actions : List Action := []
  dry_run : Bool := true
  priority : Int := 50

/-- `TriggeredAction` from `models.py` (the creation timestamp is set
from the wall clock and is not modelled). -/
structure TriggeredAction where
  playbook_id : String
  playbook_name : String
  event_ref : EventRef
  action : Action
  executed : Bool := false
  success : Option Bool := Option.none
  error_message : Option String := Option.none
  result : Option Val := Option.none

/-- `PlaybookEngine._evaluate_conditions`: all conditions must hold
(AND); an exception raised by one condition is caught and treated as a
non-match of the playbook. An empty condition list always matches. -/
def evaluate_conditions (playbook : Playbook) (event : EventRef) : Bool :=
  playbook.conditions.all (fun condition =>
    match condition.evaluate event with
    | Except.ok b => b
    | Except.error _ => false)

/-- `PlaybookEngine._resolve_action_parameters`: the source body is a
TODO that returns the action unchanged, performing no template
substitution. -/
def resolve_action_parameters (action : Action) (_event : EventRef) : Action :=
  action

/-- `PlaybookEngine.evaluate_event`: for each playbook in the engine
list, skip when disabled, skip when the event type differs, skip when
the conditions do not all hold; on a match produce one `TriggeredAction`
per action, with `executed = false` and the action run through
`_resolve_action_parameters`. -/
def evaluate_event (playbooks : List Playbook) (event : EventRef) : List TriggeredAction :=
  playbooks.flatMap (fun playbook =>
    if !playbook.enabled then []
    else if playbook.match_event_type != event.event_type then []
    else if !evaluate_conditions playbook event then []
    else
      playbook.actions.map (fun action =>
        { playbook_id := playbook.id
          playbook_name := playbook.name
          event_ref := event
          action := resolve_action_parameters action event
          executed := false }))

/-- The priority sort `_sort_playbooks`: stable sort by priority,
higher first (Python `list.sort(key=priority, reverse=True)`). -/
def sort_playbooks (playbooks : List Playbook) : List Playbook :=
  playbooks.mergeSort (fun a b => decide (b.priority ≤ a.priority))

/-- `PlaybookEngine.load_playbooks_from_file` over the prior engine
state: a missing file or a parse failure raises (after logging); a
document without a `playbooks` key returns leaving the state unchanged;
otherwise each entry that parses is APPENDED to the existing list (the
source never clears `self.playbooks` here) and the result re-sorted. -/
def load_playbooks_from_file (prev : List Playbook) (file : FileRead Playbook) :
    Except String (List Playbook) :=
  match file with
  | FileRead.missing => Except.error "FileNotFoundError"
  | FileRead.parse_error msg => Except.error msg
  | FileRead.parsed Option.none => Except.ok prev
  | FileRead.parsed (Option.some entries) =>
      Except.ok (sort_playbooks (prev ++ entries.filterMap (fun e => e.toOption)))

/-- `ActionExecutor.execute_block_domain` (src/src `actions.py`): raises
`ValueError` when the domain is missing or falsy; otherwise returns a
result dict — the dry-run marker dict, or the live branch that only logs
because Pi-hole blocking is unimplemented. Python booleans inside result
payloads are modelled as their numeric value (Python `bool` is an `int`
subtype); no theorem inspects the payloads. -/
def execute_block_domain (dry_run : Bool) (domain reason : Val) : Except String Val :=
  if !pyTruthy domain then Except.error "ValueError: Domain parameter is required"
  else if dry_run then
    Except.ok (Val.dict [("action", Val.str "block_domain"), ("domain", domain),
      ("reason", reason), ("dry_run", Val.num 1)])
  else
    Except.ok (Val.dict [("action", Val.str "block_domain"), ("domain", domain),
      ("reason", reason), ("executed", Val.num 0),
      ("note", Val.str "TODO: Implement Pi-hole API integration")])

/-- `ActionExecutor.execute_tag_device`: raises `ValueError` when either
parameter is missing or falsy; otherwise returns the dry-run or the
simulated-live result dict. -/
def execute_tag_device (dry_run : Bool) (device_ip tag : Val) : Except String Val :=
  if !pyTruthy device_ip || !pyTruthy tag then
    Except.error "ValueError: device_ip and tag parameters are required"
  else if dry_run then
    Except.ok (Val.dict [("action", Val.str "tag_device"), ("device_ip", device_ip),
      ("tag", tag), ("dry_run", Val.num 1)])
  else
    Except.ok (Val.dict [("action", Val.str "tag_device"), ("device_ip", device_ip),
      ("tag", tag), ("executed", Val.num 0),
      ("note", Val.str "TODO: Implement inventory integration")])

/-- `ActionExecutor.execute_send_notification`: raises `ValueError` when
the message is missing or falsy; the log line then calls
`severity.upper()`, so a non-string severity raises `AttributeError`;
otherwise returns the dry-run or the logger-channel result dict. -/
def execute_send_notification (dry_run : Bool) (message severity : Val) :
    Except String Val :=
  if !pyTruthy message then Except.error "ValueError: message parameter is required"
  else
    match severity with
    | Val.str _ =>
        if dry_run then
          Except.ok (Val.dict [("action", Val.str "send_notification"),
            ("message", message), ("severity", severity), ("dry_run", Val.num 1)])
        else
          Except.ok (Val.dict [("action", Val.str "send_notification"),
            ("message", message), ("severity", severity), ("executed", Val.num 1),
            ("channel", Val.str "logger"),
            ("note", Val.str "TODO: Implement Signal/Telegram/Email integration")])
    | _ => Except.error "AttributeError: upper"

/-- `ActionExecutor.execute_log_event`: logs and returns its result dict
in every mode; it never raises. -/
def execute_log_event (parameters : List (String × Val)) : Val :=
  Val.dict [("action", Val.str "log_event"), ("parameters", Val.dict parameters),
    ("executed", Val.num 1)]

/-- `ActionExecutor.execute` (src/src `actions.py:50-102`): dispatch on
the action type inside a `try`; on a normal helper return record
`executed = not self.dry_run`, `success = True` and the result; when a
helper raises record `executed = False`, `success = False` and the
message. The executor consults only its own constructor-time dry-run
flag — the playbook `dry_run` flag does not reach it. (The
unknown-action-type `raise` is unreachable over the closed enum.) -/
def ActionExecutor.execute (dry_run : Bool) (triggered_action : TriggeredAction) :
    TriggeredAction :=
  let action := triggered_action.action
  let result : Except String Val :=
    match action.action_type with
    | ActionType.BLOCK_DOMAIN =>
        execute_block_domain dry_run (dictGetD action.parameters "domain" (Val.str ""))
          (dictGetD action.parameters "reason" (Val.str "SOAR automated block"))
    | ActionType.TAG_DEVICE =>
        execute_tag_device dry_run (dictGetD action.parameters "device_ip" (Val.str ""))
          (dictGetD action.parameters "tag" (Val.str ""))
    | ActionType.SEND_NOTIFICATION =>
        execute_send_notification dry_run
          (dictGetD action.parameters "message" (Val.str ""))
          (dictGetD action.parameters "severity" (Val.str "info"))
    | ActionType.LOG_EVENT => Except.ok (execute_log_event action.parameters)
    | ActionType.SIMULATE_ONLY =>
        Except.ok (Val.dict [("simulated", Val.num 1),
          ("parameters", Val.dict action.parameters)])
  match result with
  | Except.ok r =>
      { triggered_action with
          executed := !dry_run
          success := Option.some true
          result := Option.some r }
  | Except.error e =>
      { triggered_action with
          executed := false
          success := Option.some false
          error_message := Option.some e
          result := Option.none }

end Orion.V1

namespace Orion.V2

/-!
Variant `V2`: `stacks/ai/src/orion_ai/soar/models.py`, `engine.py`,
`actions.py` and `service.py`, with the `Event` contract from
`stacks/ai/src/orion_ai/core/models.py`.
-/

/-- Operators for condition evaluation (`ConditionOperator` in
`models.py` of this variant, with the negated containment and
membership forms). -/
inductive ConditionOperator where
  | EQUALS
  | NOT_EQUALS
  | GREATER_THAN
  | LESS_THAN
  | GREATER_EQUAL
  | LESS_EQUAL
  | CONTAINS
  | NOT_CONTAINS
  | IN
  | NOT_IN
deriving DecidableEq

/-- `Condition` from `models.py` of this variant (no `negate` flag). -/
structure Condition where
  field : String
  operator : ConditionOperator
  value : Val

/-- The traversal loop of `Condition._get_nested_value`: walk the parts
with `value = value.get(part)` while the current value is a dict, else
return `None`. A missing key makes the running value `None`, which stops
descent at the next part exactly as in the source. -/
def get_nested_value_go : List String → Val → Val
  | [], value => value
  | part :: rest, value =>
      match value with
      | Val.dict entries => get_nested_value_go rest (dictGet entries part)
      | _ => Val.none

/-- `Condition._get_nested_value`: value from the nested event dict using
dot notation. -/
def get_nested_value (data : Val) (field : String) : Val :=
  get_nested_value_go (splitPath field) data

/-- `Condition.evaluate`: resolve the field against the event data dict;
`None` (missing or stored null) evaluates to `False`; otherwise apply
the operator. A comparison on mismatched types raises, and nothing in
this variant catches it. -/
def Condition.evaluate (self : Condition) (event_data : Val) : Except String Bool :=
  match get_nested_value event_data self.field with
  | Val.none => Except.ok false
  | field_value =>
      match self.operator with
      | ConditionOperator.EQUALS => Except.ok (pyEq field_value self.value)
      | ConditionOperator.NOT_EQUALS => Except.ok (!pyEq field_value self.value)
      | ConditionOperator.GREATER_THAN => pyLt self.value field_value
      | ConditionOperator.LESS_THAN => pyLt field_value self.value
      | ConditionOperator.GREATER_EQUAL => pyLe self.value field_value
      | ConditionOperator.LESS_EQUAL => pyLe field_value self.value
      | ConditionOperator.CONTAINS => pyContains field_value self.value
      | ConditionOperator.NOT_CONTAINS => (pyContains field_value self.value).map (fun b => !b)
      | ConditionOperator.IN => pyIn field_value self.value
      | ConditionOperator.NOT_IN => (pyIn field_value self.value).map (fun b => !b)

/-- `Action` from `models.py` of this variant. -/
structure Action where
  type : ActionType
  params : List (String × Val) := []

/-- `Playbook` from `models.py` of this variant: `match_event_type` is a
plain string and supports the `"*"` wildcard. -/
structure Playbook where
  id : String
  name : String
  enabled : Bool
  match_event_type : String
  conditions : List Condition := []
  actions : List Action := []
  dry_run : Bool := false
  priority : Int := 0

/-- The condition loop inside `Playbook.matches`: conditions are ANDed
with Python short-circuiting, so an exception in a later condition is
only reached when every earlier condition held. -/
def matches_conditions : List Condition → Val → Except String Bool
  | [], _ => Except.ok true
  | c :: rest, event_data =>
      match c.evaluate event_data with
      | Except.ok true => matches_conditions rest event_data
      | Except.ok false => Except.ok false
      | Except.error e => Except.error e

/-- Python `event_data.get(key)` on the serialized event dict. -/
def pyGetKey (event_data : Val) (key : String) : Val :=
  match event_data with
  | Val.dict entries => dictGet entries key
  | _ => Val.none

/-- `Playbook.matches`: `False` when disabled; when `match_event_type`
is not `"*"`, `False` when the serialized `event_type` differs;
otherwise all conditions must match. Condition exceptions propagate. -/
def Playbook.matches (self : Playbook) (event_data : Val) : Except String Bool :=
  if !self.enabled then Except.ok false
  else if self.match_event_type != "*"
       && pyGetKey event_data "event_type" != Val.str self.match_event_type then
    Except.ok false
  else matches_conditions self.conditions event_data

/-- `Event` from `core/models.py`: the generic event-feed record. The
enum-typed `event_type` and `severity` are modelled by their string
values and the timestamp by its `isoformat()` string, matching exactly
what `to_dict` serializes. -/
structure Event where
  event_id : String
  event_type : String
  timestamp : String
  severity : String
  title : String
  description : String
  source : String
  device_id : Option String := Option.none
  ip : Option String := Option.none
  metadata : List (String × Val) := []

/-- `Event.to_dict`: the serialization evaluated against by playbook
conditions; note the field tree lives under the top-level `metadata`
key. -/
def Event.to_dict (e : Event) : Val :=
  Val.dict
    [("event_id", Val.str e.event_id),
     ("event_type", Val.str e.event_type),
     ("timestamp", Val.str e.timestamp),
     ("device_id", optStr e.device_id),
     ("ip", optStr e.ip),
     ("severity", Val.str e.severity),
     ("title", Val.str e.title),
     ("description", Val.str e.description),
     ("source", Val.str e.source),
     ("metadata", Val.dict e.metadata)]

/-- `TriggeredAction` from `models.py` of this variant (creation
timestamp not modelled). -/
structure TriggeredAction where
  playbook_id : String
  playbook_name : String
  action : Action
  event_id : String
  executed : Bool := false
  success : Option Bool := Option.none
  error : Option String := Option.none

/-- The playbook loop of `PlaybookEngine.evaluate_event`: each playbook
is matched in turn; a raising `matches` aborts the whole evaluation; a
matching playbook contributes one `TriggeredAction` per action with
`executed = false`. -/
def evaluate_event_go (event_id : String) : List Playbook → Val → Except String (List TriggeredAction)
  | [], _ => Except.ok []
  | playbook :: rest, event_data =>
      match playbook.matches event_data with
      | Except.error e => Except.error e
      | Except.ok m =>
          let here :=
            if m then
              playbook.actions.map (fun action =>
                ({ playbook_id := playbook.id
                   playbook_name := playbook.name
                   action := action
                   event_id := event_id
                   executed := false } : TriggeredAction))
            else []
          match evaluate_event_go event_id rest event_data with
          | Except.error e => Except.error e
          | Except.ok tail => Except.ok (here ++ tail)

/-- `PlaybookEngine.evaluate_event`: serialize the event once and run
every playbook against it. No template resolution of action parameters
takes place anywhere in this variant. -/
def evaluate_event (playbooks : List Playbook) (event : Event) : Except String (List TriggeredAction) :=
  evaluate_event_go event.event_id playbooks event.to_dict

/-- The priority sort in `reload_playbooks` (stable, higher first). -/
def sort_playbooks (playbooks : List Playbook) : List Playbook :=
  playbooks.mergeSort (fun a b => decide (b.priority ≤ a.priority))

/-- `PlaybookEngine.reload_playbooks` over the prior engine state. The
source first executes `self.playbooks = []`, clearing the loaded set,
and only then reads the file; a missing file, a parse failure, or a
document without a `playbooks` key each return 0 with the list left
empty. On success, entries that parse are collected, sorted by priority,
and become the new list. The previous state is never consulted. -/
def reload_playbooks (prev : List Playbook) (file : FileRead Playbook) :
    List Playbook × Nat :=
  match prev, file with
  | _, FileRead.missing => ([], 0)
  | _, FileRead.parse_error _ => ([], 0)
  | _, FileRead.parsed Option.none => ([], 0)
  | _, FileRead.parsed (Option.some entries) =>
      let playbooks := entries.filterMap (fun e => e.toOption)
      let sorted := sort_playbooks playbooks
      (sorted, sorted.length)

/-- The capability collaborators consumed by `ActionHandler`
(`actions.py` of this variant): the device store tagger and the
notification dispatcher. Each call either returns a success boolean or
raises (modelled as `Except.error`). Pi-hole blocking has no
collaborator call in the source (the live branch only logs). -/
structure Collab where
  tag_device : Val → Val → Except String Bool
  send_notification : Val → Val → Val → Except String Bool

/-- `ActionHandler._handle_block_domain`: a missing or falsy `domain`
parameter returns `False`; otherwise both the live branch (which only
logs, blocking being unimplemented) and the dry-run branch return
`True`. -/
def handle_block_domain (action : Action) (_execute : Bool) : Except String Bool :=
  let domain := dictGet action.params "domain"
  if !pyTruthy domain then Except.ok false
  else Except.ok true

/-- `ActionHandler._handle_tag_device`: missing `device_id` or `tag`
returns `False`; the live branch calls the device store (which may
raise), the dry-run branch returns `True`. -/
def handle_tag_device (collab : Collab) (action : Action) (execute : Bool) :
    Except String Bool :=
  let device_id := dictGet action.params "device_id"
  let tag := dictGet action.params "tag"
  if !pyTruthy device_id || !pyTruthy tag then Except.ok false
  else if execute then collab.tag_device device_id tag
  else Except.ok true

/-- `ActionHandler._handle_send_notification`: a missing `message`
returns `False`; the live branch calls the notification dispatcher
(which may raise), the dry-run branch returns `True`. (The severity
string is forwarded after an enum lookup whose `ValueError` fallback to
INFO is local and outcome-irrelevant, so it is modelled as a plain
pass-through.) -/
def handle_send_notification (collab : Collab) (action : Action) (execute : Bool) :
    Except String Bool :=
  let subject := dictGetD action.params "subject" (Val.str "Security Alert")
  let message := dictGetD action.params "message" (Val.str "")
  let severity := dictGetD action.params "severity" (Val.str "INFO")
  if !pyTruthy message then Except.ok false
  else if execute then collab.send_notification subject message severity
  else Except.ok true

/-- `ActionHandler._handle_simulate`: always returns `True` (it only
logs). -/
def handle_simulate (_action : Action) : Bool :=
  true

/-- `ActionHandler._handle_log_event`: logs and returns `True` in every
mode; a non-string `level` parameter raises `AttributeError` on
`.upper()`, which the caller catches. -/
def handle_log_event (action : Action) (_execute : Bool) : Except String Bool :=
  match dictGetD action.params "level" (Val.str "INFO") with
  | Val.str _ => Except.ok true
  | _ => Except.error "AttributeError: upper"

/-- `ActionHandler.execute`: computes
`should_execute = not (global_dry_run or dry_run)`, dispatches on the
action type, and then records `executed := should_execute` and the
success flag on the triggered action — uniformly for every action type,
both when the handler returns and when it raises. Returns the updated
record and the boolean result of `execute`. (The unknown-action-type
early return in the source is unreachable over the closed enum.) -/
def ActionHandler.execute (global_dry_run : Bool) (collab : Collab)
    (triggered_action : TriggeredAction) (dry_run : Bool) : TriggeredAction × Bool :=
  let should_execute := !(global_dry_run || dry_run)
  let handler_result : Except String Bool :=
    match triggered_action.action.type with
    | ActionType.BLOCK_DOMAIN => handle_block_domain triggered_action.action should_execute
    | ActionType.TAG_DEVICE => handle_tag_device collab triggered_action.action should_execute
    | ActionType.SEND_NOTIFICATION =>
        handle_send_notification collab triggered_action.action should_execute
    | ActionType.SIMULATE_ONLY => Except.ok (handle_simulate triggered_action.action)
    | ActionType.LOG_EVENT => handle_log_event triggered_action.action should_execute
  match handler_result with
  | Except.ok success =>
      ({ triggered_action with executed := should_execute, success := Option.some success },
       success)
  | Except.error e =>
      ({ triggered_action with
          executed := should_execute
          success := Option.some false
          error := Option.some e },
       false)

/-- The per-event dispatch loop inside `SOARService.run_once`: for every
triggered action, look up the playbook to read its `dry_run` flag
(defaulting to `False` when the playbook is gone), execute it, count the
successes, and emit each updated record to the audit sink paired with
the event id. -/
def dispatch_actions (playbooks : List Playbook) (global_dry_run : Bool) (collab : Collab)
    (event_id : String) : List TriggeredAction → Nat × List (String × TriggeredAction)
  | [] => (0, [])
  | triggered_action :: rest =>
      let dry_run :=
        match playbooks.find? (fun p => p.id == triggered_action.playbook_id) with
        | Option.some playbook => playbook.dry_run
        | Option.none => false
      let step := ActionHandler.execute global_dry_run collab triggered_action dry_run
      let tail := dispatch_actions playbooks global_dry_run collab event_id rest
      (tail.1 + (if step.2 then 1 else 0), (event_id, step.1) :: tail.2)

/-- The event loop of `SOARService.run_once` over the already-filtered
new events: evaluate each event (a raising evaluation aborts the cycle,
leaving the window as mutated so far and skipping the remaining events
and the trim step), dispatch its triggered actions, and finally add the
event id to the processed set — even when zero actions were triggered. -/
def run_once_go (playbooks : List Playbook) (global_dry_run : Bool) (collab : Collab) :
    List Event → List String → Nat → List (String × TriggeredAction) →
    List String × Nat × List (String × TriggeredAction) × Option String
  | [], window, total, audit => (window, total, audit, Option.none)
  | event :: rest, window, total, audit =>
      match evaluate_event playbooks event with
      | Except.error msg => (window, total, audit, Option.some msg)
      | Except.ok triggered_actions =>
          let step := dispatch_actions playbooks global_dry_run collab
            event.event_id triggered_actions
          let window2 :=
            if event.event_id ∈ window then window else window ++ [event.event_id]
          run_once_go playbooks global_dry_run collab rest window2
            (total + step.1) (audit ++ step.2)

/-- The trim step at the end of `SOARService.run_once`: when the
processed set holds more than 10000 ids, keep the last 5000 entries of
`list(set(...))`. Python set iteration order is arbitrary, so the
enumeration is a parameter; any permutation of the set is a legal
enumeration. -/
def evict_window (enum : List String → List String) (window : List String) : List String :=
  if 10000 < window.length then (enum window).drop ((enum window).length - 5000)
  else window

/-- The result of one `SOARService.run_once` cycle: the processed-event
window, the count of successful action executions, the audit trail of
emitted action records, and the exception message when the cycle was
aborted (the caller `run_loop` catches it and retries next interval). -/
structure RunResult where
  window : List String
  count : Nat
  audit : List (String × TriggeredAction)
  error : Option String

/-- `SOARService.run_once` over one fetched batch: filter out event ids
already in the processed window (once, up front), process the remaining
events in order, and — only when the cycle completes — apply the window
trim. -/
def run_once (playbooks : List Playbook) (global_dry_run : Bool) (collab : Collab)
    (enum : List String → List String) (window : List String) (events : List Event) :
    RunResult :=
  let new_events := events.filter (fun e => decide (e.event_id ∉ window))
  match run_once_go playbooks global_dry_run collab new_events window 0 [] with
  | (w, n, audit, Option.none) =>
      { window := evict_window enum w, count := n, audit := audit, error := Option.none }
  | (w, n, audit, Option.some msg) =>
      { window := w, count := n, audit := audit, error := Option.some msg }

end Orion.V2

namespace Orion

/-!
Concrete fixtures: the playbooks and events of the testable scenarios in
the specification, written as literal configuration values.
-/

/-- The executed-flag formula asserted by the specification for the
dispatcher (stated in its words, for comparison against the code):
`!(globalDryRun || dry_run)` for the three mutating action types, always
false for `SIMULATE_ONLY`, always true for `LOG_EVENT`. -/
def spec_executed_flag (t : ActionType) (global_dry_run dry_run : Bool) : Bool :=
  match t with
  | ActionType.BLOCK_DOMAIN => !(global_dry_run || dry_run)
  | ActionType.TAG_DEVICE => !(global_dry_run || dry_run)
  | ActionType.SEND_NOTIFICATION => !(global_dry_run || dry_run)
  | ActionType.SIMULATE_ONLY => false
  | ActionType.LOG_EVENT => true

/-- Collaborators whose calls always succeed. -/
def collab0 : V2.Collab :=
  { tag_device := fun _ _ => Except.ok true
    send_notification := fun _ _ _ => Except.ok true }

/-- A triggered `SIMULATE_ONLY` action. -/
def taSim : V2.TriggeredAction :=
  { playbook_id := "pb-sim", playbook_name := "simulate", event_id := "evt-1"
    action := { type := ActionType.SIMULATE_ONLY } }

/-- A triggered `LOG_EVENT` action. -/
def taLog : V2.TriggeredAction :=
  { playbook_id := "pb-log", playbook_name := "log", event_id := "evt-1"
    action := { type := ActionType.LOG_EVENT } }

/-- The `block-high-confidence` playbook of the end-to-end scenario
(conditions `fields.confidence >= 0.9`, a `BLOCK_DOMAIN` action with the
templated `domain` parameter, then a `SEND_NOTIFICATION` action, with
`dry_run = true`). -/
def pbC2 : V1.Playbook :=
  { id := "block-high-confidence"
    name := "Block High Confidence Threats"
    enabled := true
    match_event_type := "intel_match"
    conditions := [{ field := "fields.confidence"
                     operator := V1.ConditionOperator.GREATER_THAN_OR_EQUAL
                     value := Val.num (mkRat 9 10) }]
    actions := [{ action_type := ActionType.BLOCK_DOMAIN
                  parameters := [("domain", Val.str "\x7b\x7bfields.ioc_value\x7d\x7d")] },
                { action_type := ActionType.SEND_NOTIFICATION
                  parameters :=
                    [("message", Val.str "Blocked domain \x7b\x7bfields.ioc_value\x7d\x7d"),
                     ("severity", Val.str "high")] }]
    dry_run := true }

/-- The intel-match event of the end-to-end scenario, with confidence
0.95 and the malicious domain in its field tree. -/
def evC2 : V1.EventRef :=
  { event_type := "intel_match"
    timestamp := Val.str "2025-01-15T10:30:00Z"
    fields := [("confidence", Val.num (mkRat 95 100)),
               ("ioc_value", Val.str "malicious.example.com")] }

/-- An event whose field tree has no `confidence` entry. -/
def evC7 : V1.EventRef :=
  { event_type := "intel_match"
    timestamp := Val.str "2025-01-15T10:30:00Z"
    labels := [("severity", "high")]
    fields := [("ioc_value", Val.str "malicious.example.com")] }

/-- A V1 triggered `LOG_EVENT` action (its handler never raises). -/
def taV1Log : V1.TriggeredAction :=
  { playbook_id := "pb-log", playbook_name := "log", event_ref := evC7
    action := { action_type := ActionType.LOG_EVENT } }

/-- A V1 triggered `BLOCK_DOMAIN` action with no `domain` parameter, on
which the helper raises `ValueError`. -/
def taV1NoDomain : V1.TriggeredAction :=
  { playbook_id := "pb-block", playbook_name := "block", event_ref := evC7
    action := { action_type := ActionType.BLOCK_DOMAIN } }

/-- An event carrying both a field tree, labels and a concrete event
type, for path-resolution scenarios. -/
def evC9 : V1.EventRef :=
  { event_type := "intel_match"
    timestamp := Val.str "2025-01-15T10:30:00Z"
    labels := [("severity", "high")]
    fields := [("confidence", Val.num (mkRat 95 100)),
               ("ioc_value", Val.str "malicious.example.com")] }

/-- An event whose `confidence` field is present but holds null. -/
def evNullField : V1.EventRef :=
  { event_type := "intel_match"
    timestamp := Val.none
    fields := [("confidence", Val.none)] }

/-- The same event with the `confidence` field absent. -/
def evAbsentField : V1.EventRef :=
  { event_type := "intel_match"
    timestamp := Val.none
    fields := [] }

/-- A V2 event whose `metadata.score` entry is present but holds null. -/
def evNullMeta : V2.Event :=
  { event_id := "evt-9", event_type := "intel_match", timestamp := "2025-01-15T10:30:00Z"
    severity := "INFO", title := "intel", description := "", source := "intel"
    metadata := [("score", Val.none)] }

/-- A playbook loaded before a reload attempt. -/
def pbPrev : V2.Playbook :=
  { id := "previously-loaded", name := "Previously loaded", enabled := true
    match_event_type := "*" }

/-- An enabled wildcard playbook whose single condition compares a
string-valued field with a number (`GT` on non-comparable types). -/
def pbBad : V2.Playbook :=
  { id := "bad", name := "Malformed condition", enabled := true, match_event_type := "*"
    conditions := [{ field := "metadata.score"
                     operator := V2.ConditionOperator.GREATER_THAN
                     value := Val.num 5 }] }

/-- An enabled wildcard playbook with no conditions and one action. -/
def pbGood : V2.Playbook :=
  { id := "good", name := "Always matches", enabled := true, match_event_type := "*"
    actions := [{ type := ActionType.LOG_EVENT }] }

/-- An event whose `metadata.score` is the string `"high"`. -/
def evC5 : V2.Event :=
  { event_id := "evt-5", event_type := "suricata_alert", timestamp := "t"
    severity := "HIGH", title := "alert", description := "", source := "suricata"
    metadata := [("score", Val.str "high")] }

/-- The V1 condition of the malformed-comparison scenario. -/
def condBadV1 : V1.Condition :=
  { field := "fields.score"
    operator := V1.ConditionOperator.GREATER_THAN
    value := Val.num 5 }

/-- The V1 event on which `condBadV1` raises (`score` is a string). -/
def evC5v1 : V1.EventRef :=
  { event_type := "suricata_alert"
    timestamp := Val.none
    fields := [("score", Val.str "high")] }

/-- V1 playbook carrying the malformed condition. -/
def pbBadV1 : V1.Playbook :=
  { id := "bad", name := "Malformed condition", enabled := true
    match_event_type := "suricata_alert"
    conditions := [condBadV1]
    actions := [{ action_type := ActionType.SEND_NOTIFICATION }] }

/-- V1 playbook with no conditions and one action on the same type. -/
def pbGoodV1 : V1.Playbook :=
  { id := "good", name := "Always matches", enabled := true
    match_event_type := "suricata_alert"
    actions := [{ action_type := ActionType.LOG_EVENT }] }

/-- An enabled V2 wildcard playbook with no conditions. -/
def pbStar : V2.Playbook :=
  { id := "star", name := "Wildcard", enabled := true, match_event_type := "*" }

/-- An enabled V2 playbook matching only `intel_match` events. -/
def pbConc : V2.Playbook :=
  { id := "conc", name := "Concrete type", enabled := true, match_event_type := "intel_match" }

/-- A V2 event of a type different from `intel_match`. -/
def evC6 : V2.Event :=
  { event_id := "evt-6", event_type := "suricata_alert", timestamp := "t"
    severity := "INFO", title := "", description := "", source := "ids" }

/-- A V2 event of type `intel_match`. -/
def evC6b : V2.Event :=
  { event_id := "evt-7", event_type := "intel_match", timestamp := "t"
    severity := "INFO", title := "", description := "", source := "intel" }

/-- A V1 event of a type no fixture playbook matches. -/
def evC6v1 : V1.EventRef :=
  { event_type := "honeypot_hit", timestamp := Val.none }

/-- A V2 event used by the scheduler scenarios, with id `evt-1`. -/
def evtC4 : V2.Event :=
  { event_id := "evt-1", event_type := "intel_match", timestamp := "t"
    severity := "INFO", title := "", description := "", source := "intel" }

/-- A concrete triggered action used to instantiate audit statements. -/
def taC4 : V2.TriggeredAction :=
  { playbook_id := "p", playbook_name := "p", event_id := "evt-1"
    action := { type := ActionType.LOG_EVENT } }

/-- A processed-event window of 10001 distinct ids in insertion order. -/
def bigWindow : List String :=
  (List.range 10001).map (fun i => "e" ++ toString i)

end Orion

namespace Orion

/-!
Claim theorems.
-/

/-- C7: for every condition and every event in which the dot-path of the
condition does not resolve (`_get_field_value` returns the missing
marker), `evaluate` returns exactly the `negate` flag — false before
negation, so a positive comparison such as `GE 0.9` yields no match, and
the same condition with `negate = true` evaluates to true. -/
theorem c7_missing_field_returns_negate (c : V1.Condition) (ev : V1.EventRef)
    (h : V1.get_field_value ev c.field = Val.none) :
    c.evaluate ev = Except.ok c.negate := by
  unfold V1.Condition.evaluate
  rw [h]

/-- C7 witness: the `GE 0.9` condition on `fields.confidence` against an
event with no `confidence` field yields false, and true when negated. -/
theorem c7_missing_field_returns_negate_witness :
    (({ field := "fields.confidence", operator := V1.ConditionOperator.GREATER_THAN_OR_EQUAL,
        value := Val.num (mkRat 9 10) } : V1.Condition).evaluate evC7 = Except.ok false)
  ∧ (({ field := "fields.confidence", operator := V1.ConditionOperator.GREATER_THAN_OR_EQUAL,
        value := Val.num (mkRat 9 10), negate := true } : V1.Condition).evaluate evC7
      = Except.ok true) :=
  ⟨c7_missing_field_returns_negate _ evC7 rfl, c7_missing_field_returns_negate _ evC7 rfl⟩

/-- C9: condition field paths resolve against the whole serialized
event: a path starting with the literal `fields` segment descends into
the field tree; a bare field name such as `confidence` misses even when
the field tree contains it; and paths such as `labels.severity` and
`event_type` address other top-level event attributes and can satisfy a
comparison. -/
theorem c9_paths_resolve_against_serialized_event :
    (∀ (ev : V1.EventRef) (parts : List String),
      V1.get_field_value_go ("fields" :: parts) (V1.EventRef.dict ev)
        = V1.get_field_value_go parts (Val.dict ev.fields))
  ∧ V1.get_field_value evC9 "confidence" = Val.none
  ∧ V1.get_field_value evC9 "fields.confidence" = Val.num (mkRat 95 100)
  ∧ (({ field := "labels.severity", operator := V1.ConditionOperator.EQUALS,
        value := Val.str "high" } : V1.Condition).evaluate evC9 = Except.ok true)
  ∧ (({ field := "event_type", operator := V1.ConditionOperator.EQUALS,
        value := Val.str "intel_match" } : V1.Condition).evaluate evC9 = Except.ok true) :=
  ⟨fun _ _ => rfl, rfl, rfl, rfl, rfl⟩

/-- C10: a field that is present in the event field tree but holds null
is indistinguishable from an absent field: any two events on which the
dot-path lookup yields the missing marker evaluate identically, and on
the concrete null-valued and absent-valued events every operator (with
every comparison value and negate flag) returns exactly the negate flag
(false before negation); the V2 variant likewise returns false for every
operator on a null-valued `metadata.score`. -/
theorem c10_null_field_equals_absent :
    (∀ (c : V1.Condition) (ev₁ ev₂ : V1.EventRef),
        V1.get_field_value ev₁ c.field = Val.none →
        V1.get_field_value ev₂ c.field = Val.none →
        c.evaluate ev₁ = c.evaluate ev₂)
  ∧ (∀ (op : V1.ConditionOperator) (v : Val) (neg : Bool),
      ({ field := "fields.confidence", operator := op, value := v, negate := neg } :
        V1.Condition).evaluate evNullField = Except.ok neg)
  ∧ (∀ (op : V1.ConditionOperator) (v : Val) (neg : Bool),
      ({ field := "fields.confidence", operator := op, value := v, negate := neg } :
        V1.Condition).evaluate evAbsentField = Except.ok neg)
  ∧ (∀ (op : V2.ConditionOperator) (v : Val),
      ({ field := "metadata.score", operator := op, value := v } :
        V2.Condition).evaluate (V2.Event.to_dict evNullMeta) = Except.ok false) := by
  refine ⟨?_, fun _ _ _ => rfl, fun _ _ _ => rfl, fun _ _ => rfl⟩
  intro c ev₁ ev₂ h1 h2
  unfold V1.Condition.evaluate
  rw [h1, h2]

/-- C10 witness: the null-valued and the absent-valued events evaluate
identically under a concrete condition. -/
theorem c10_null_field_equals_absent_witness :
    ({ field := "fields.confidence", operator := V1.ConditionOperator.GREATER_THAN_OR_EQUAL,
       value := Val.num (mkRat 9 10) } : V1.Condition).evaluate evNullField
      = ({ field := "fields.confidence", operator := V1.ConditionOperator.GREATER_THAN_OR_EQUAL,
           value := Val.num (mkRat 9 10) } : V1.Condition).evaluate evAbsentField :=
  c10_null_field_equals_absent.1 _ evNullField evAbsentField rfl rfl

/-- C3 counterexample: with one playbook loaded, a reload whose source
fails to parse leaves the engine with an EMPTY playbook list, not with
the previously loaded set — `reload_playbooks` clears the list before
parsing. -/
theorem c3_failed_reload_clears_state_cex :
    (V2.reload_playbooks [pbPrev] (FileRead.parse_error "yaml: parse error")).1 = []
  ∧ (V2.reload_playbooks [pbPrev] (FileRead.parse_error "yaml: parse error")).1 ≠ [pbPrev] := by
  refine ⟨rfl, ?_⟩
  intro h
  exact absurd h.symm (List.cons_ne_nil pbPrev [])

/-- C3 amended: a reload whose source is missing, fails to parse, or has
no playbooks key leaves the engine with zero playbooks and a zero count;
a successful reload replaces the entire list with exactly the newly
parsed set — the result never depends on the previously loaded state. -/
theorem c3_reload_replaces_ignoring_previous (prev : List V2.Playbook) (msg : String)
    (entries : List (Except String V2.Playbook)) :
    V2.reload_playbooks prev (FileRead.parse_error msg) = ([], 0)
  ∧ V2.reload_playbooks prev FileRead.missing = ([], 0)
  ∧ V2.reload_playbooks prev (FileRead.parsed Option.none) = ([], 0)
  ∧ V2.reload_playbooks prev (FileRead.parsed (Option.some entries))
      = V2.reload_playbooks [] (FileRead.parsed (Option.some entries)) :=
  ⟨rfl, rfl, rfl, rfl⟩

/-- C2: evaluating the `block-high-confidence` playbook against the
0.95-confidence intel-match event yields exactly 2 triggered actions,
both with `executed = false`; but the `domain` parameter of the
`BLOCK_DOMAIN` action is still the literal template token, NOT the
resolved string `malicious.example.com` — `_resolve_action_parameters`
returns the action unchanged, contradicting its own docstring. -/
theorem c2_template_resolution_missing :
    (V1.evaluate_event [pbC2] evC2).length = 2
  ∧ ((V1.evaluate_event [pbC2] evC2).all (fun t => !t.executed)) = true
  ∧ ((V1.evaluate_event [pbC2] evC2).head?.map
        (fun t => dictGet t.action.parameters "domain"))
      = Option.some (Val.str "\x7b\x7bfields.ioc_value\x7d\x7d")
  ∧ Val.str "\x7b\x7bfields.ioc_value\x7d\x7d" ≠ Val.str "malicious.example.com" := by
  refine ⟨rfl, rfl, rfl, ?_⟩
  intro h
  injection h with h2
  exact absurd h2 (by decide)

end Orion

namespace Orion

/-- On a serialized event, the `event_type` top-level key holds exactly
the string event type. -/
theorem pyGetKey_to_dict_event_type (e : V2.Event) :
    V2.pyGetKey (V2.Event.to_dict e) "event_type" = Val.str e.event_type := rfl

/-- Inequality of modelled string values mirrors string inequality. -/
theorem val_str_bne (a b : String) :
    (Val.str a != Val.str b) = !(a == b) := rfl

/-- C6: an enabled playbook whose `match_event_type` is the wildcard
passes the event-type gate for every event (the conditions alone then
decide the match); an enabled playbook with a concrete type is not
matched when the event type differs, and passes the gate when it is
equal; in the V1 engine an enabled playbook is likewise skipped whenever
its `match_event_type` differs from the event type. -/
theorem c6_event_type_gate :
    (∀ (pb : V2.Playbook) (e : V2.Event), pb.enabled = true → pb.match_event_type = "*" →
        pb.matches e.to_dict = V2.matches_conditions pb.conditions e.to_dict)
  ∧ (∀ (pb : V2.Playbook) (e : V2.Event), pb.enabled = true → pb.match_event_type ≠ "*" →
        pb.match_event_type ≠ e.event_type → pb.matches e.to_dict = Except.ok false)
  ∧ (∀ (pb : V2.Playbook) (e : V2.Event), pb.enabled = true →
        pb.match_event_type = e.event_type →
        pb.matches e.to_dict = V2.matches_conditions pb.conditions e.to_dict)
  ∧ (∀ (pb : V1.Playbook) (ev : V1.EventRef), pb.enabled = true →
        pb.match_event_type ≠ ev.event_type → V1.evaluate_event [pb] ev = []) := by
  refine ⟨?_, ?_, ?_, ?_⟩
  · intro pb e h1 h2
    simp [V2.Playbook.matches, h1, h2]
  · intro pb e h1 h2 h3
    have hne : (e.event_type == pb.match_event_type) = false :=
      beq_eq_false_iff_ne.mpr (fun hh => h3 hh.symm)
    simp [V2.Playbook.matches, h1, pyGetKey_to_dict_event_type, val_str_bne,
      hne, bne_iff_ne.mpr h2]
  · intro pb e h1 h2
    have heq : (e.event_type == pb.match_event_type) = true := beq_iff_eq.mpr h2.symm
    simp [V2.Playbook.matches, h1, pyGetKey_to_dict_event_type, val_str_bne, heq]
  · intro pb ev h1 h2
    simp only [V1.evaluate_event, List.flatMap_cons, List.flatMap_nil, List.append_nil,
      h1, bne_iff_ne.mpr h2]
    simp

/-- C6 witness: concrete wildcard and concrete-type playbooks against
events of equal and differing types. -/
theorem c6_event_type_gate_witness :
    (pbStar.matches evC6.to_dict = V2.matches_conditions pbStar.conditions evC6.to_dict)
  ∧ (pbConc.matches evC6.to_dict = Except.ok false)
  ∧ (pbConc.matches evC6b.to_dict = V2.matches_conditions pbConc.conditions evC6b.to_dict)
  ∧ (V1.evaluate_event [pbBadV1] evC6v1 = []) :=
  ⟨c6_event_type_gate.1 pbStar evC6 rfl rfl,
   c6_event_type_gate.2.1 pbConc evC6 rfl (by decide) (by decide),
   c6_event_type_gate.2.2.1 pbConc evC6b rfl rfl,
   c6_event_type_gate.2.2.2 pbBadV1 evC6v1 rfl (by decide)⟩

/-- C1 counterexample: with both dry-run flags false, a successful
`SIMULATE_ONLY` dispatch records `executed = true` (the claim asserts it
is always false), and with the playbook flag true a `LOG_EVENT` dispatch
records `executed = false` (the claim asserts it is always true). -/
theorem c1_executed_flag_cex :
    ((V2.ActionHandler.execute false collab0 taSim false).1.executed
        ≠ spec_executed_flag ActionType.SIMULATE_ONLY false false)
  ∧ ((V2.ActionHandler.execute false collab0 taLog true).1.executed
        ≠ spec_executed_flag ActionType.LOG_EVENT false true) := by
  constructor <;> decide

/-- C1 amended: no action type has an exceptional dry-run rule in
either dispatcher. In the stacks/ai `ActionHandler` the recorded
`executed` flag equals `!(global_dry_run || playbook dry_run)`
uniformly for EVERY action type — including `SIMULATE_ONLY` and
`LOG_EVENT` — on both the success and the exception path. In the
src/src `ActionExecutor`, which never consults the playbook `dry_run`
flag, the recorded `executed` flag equals the negation of the executor
dry-run flag on every successful dispatch and is false on every
exception path, again for every action type. -/
theorem c1_executed_flag_per_variant :
    (∀ (global_dry_run dry_run : Bool) (collab : V2.Collab) (ta : V2.TriggeredAction),
        ((V2.ActionHandler.execute global_dry_run collab ta dry_run).1).executed
          = !(global_dry_run || dry_run))
  ∧ (∀ (dry_run : Bool) (ta : V1.TriggeredAction),
        ((V1.ActionExecutor.execute dry_run ta).success = Option.some true →
          (V1.ActionExecutor.execute dry_run ta).executed = !dry_run)
      ∧ ((V1.ActionExecutor.execute dry_run ta).success = Option.some false →
          (V1.ActionExecutor.execute dry_run ta).executed = false)) := by
  constructor
  · intro global_dry_run dry_run collab ta
    simp only [V2.ActionHandler.execute]
    split <;> rfl
  · intro dry_run ta
    simp only [V1.ActionExecutor.execute]
    split
    · exact ⟨fun _ => rfl, fun h => by simp at h⟩
    · exact ⟨fun h => by simp at h, fun _ => rfl⟩

/-- C1 amended witness: a dry-run `LOG_EVENT` dispatch in the
stacks/ai handler records `executed = false`; in the src/src executor a
successful dry-run `LOG_EVENT` records `executed = false`, and a
`BLOCK_DOMAIN` action whose missing domain makes the helper raise
records `executed = false` even in live mode. -/
theorem c1_executed_flag_per_variant_witness :
    ((V2.ActionHandler.execute false collab0 taLog true).1).executed = !(false || true)
  ∧ (V1.ActionExecutor.execute true taV1Log).executed = !true
  ∧ (V1.ActionExecutor.execute false taV1NoDomain).executed = false :=
  ⟨c1_executed_flag_per_variant.1 false true collab0 taLog,
   (c1_executed_flag_per_variant.2 true taV1Log).1 rfl,
   (c1_executed_flag_per_variant.2 false taV1NoDomain).2 rfl⟩

/-- C5 counterexample: in the V2 engine, a `GT` comparison between a
number and a string raises, and the exception propagates out of
`evaluate_event`, aborting evaluation of the remaining playbooks — the
second (always-matching) playbook contributes nothing and the caller
receives the error instead of a list. -/
theorem c5_type_error_raises_cex :
    V2.evaluate_event [pbBad, pbGood] evC5
      = Except.error "TypeError: unsupported comparison between mismatched types" := rfl

/-- Evaluation distributes over appended playbook lists. -/
theorem evaluate_event_append (a b : List V1.Playbook) (ev : V1.EventRef) :
    V1.evaluate_event (a ++ b) ev = V1.evaluate_event a ev ++ V1.evaluate_event b ev := by
  unfold V1.evaluate_event
  exact List.flatMap_append a b _

/-- C5 amended: in the V1 engine a condition whose comparison raises is
caught and resolves the playbook to a non-match, and removing that
playbook from any position in the set leaves the evaluation of every
other playbook unchanged (evaluation is total and never raises); in the
V2 engine, by contrast, the failure propagates to the caller of
`evaluate_event` and aborts the remaining playbooks (see the
counterexample). -/
theorem c5_v1_condition_failure_contained (pb : V1.Playbook) (ev : V1.EventRef)
    (c : V1.Condition) (msg : String) (l1 l2 : List V1.Playbook)
    (hc : c ∈ pb.conditions) (he : c.evaluate ev = Except.error msg) :
    V1.evaluate_conditions pb ev = false
  ∧ V1.evaluate_event (l1 ++ pb :: l2) ev
      = V1.evaluate_event l1 ev ++ V1.evaluate_event l2 ev := by
  have h1 : V1.evaluate_conditions pb ev = false := by
    rw [V1.evaluate_conditions]
    cases hall : pb.conditions.all (fun condition =>
        match condition.evaluate ev with
        | Except.ok b => b
        | Except.error _ => false) with
    | false => rfl
    | true =>
        have hcval := List.all_eq_true.mp hall c hc
        rw [he] at hcval
        exact absurd hcval (by simp)
  have hpb : V1.evaluate_event [pb] ev = [] := by
    unfold V1.evaluate_event
    simp [h1]
  refine ⟨h1, ?_⟩
  rw [evaluate_event_append l1 (pb :: l2) ev, show pb :: l2 = [pb] ++ l2 from rfl,
    evaluate_event_append [pb] l2 ev, hpb, List.nil_append]

/-- C5 witness: the malformed-condition playbook resolves to a
non-match and its presence does not affect the always-matching playbook
next to it. -/
theorem c5_v1_condition_failure_contained_witness :
    V1.evaluate_conditions pbBadV1 evC5v1 = false
  ∧ V1.evaluate_event ([] ++ pbBadV1 :: [pbGoodV1]) evC5v1
      = V1.evaluate_event [] evC5v1 ++ V1.evaluate_event [pbGoodV1] evC5v1 :=
  c5_v1_condition_failure_contained pbBadV1 evC5v1 condBadV1
    "TypeError: unsupported comparison between mismatched types" [] [pbGoodV1]
    (by simp [pbBadV1]) rfl

end Orion

namespace Orion

/-- Every audit record emitted while dispatching the actions of one
event carries that event id. -/
theorem dispatch_actions_audit_ids (pbs : List V2.Playbook) (g : Bool) (collab : V2.Collab)
    (eid : String) (tas : List V2.TriggeredAction) :
    ∀ p ∈ (V2.dispatch_actions pbs g collab eid tas).2, p.1 = eid := by
  induction tas with
  | nil => intro p hp; simp [V2.dispatch_actions] at hp
  | cons ta rest ih =>
      intro p hp
      simp only [V2.dispatch_actions, List.mem_cons] at hp
      rcases hp with h | h
      · rw [h]
      · exact ih p h

/-- Every audit record produced by the event loop either was already in
the accumulator or carries the id of one of the processed events. -/
theorem run_once_go_audit (pbs : List V2.Playbook) (g : Bool) (collab : V2.Collab) :
    ∀ (evs : List V2.Event) (window : List String) (total : Nat)
      (audit : List (String × V2.TriggeredAction)),
      ∀ p ∈ (V2.run_once_go pbs g collab evs window total audit).2.2.1,
        p ∈ audit ∨ p.1 ∈ evs.map (fun e => e.event_id) := by
  intro evs
  induction evs with
  | nil =>
      intro window total audit p hp
      simp only [V2.run_once_go] at hp
      exact Or.inl hp
  | cons e rest ih =>
      intro window total audit p hp
      simp only [V2.run_once_go] at hp
      cases hev : V2.evaluate_event pbs e with
      | error msg =>
          rw [hev] at hp
          exact Or.inl hp
      | ok tas =>
          rw [hev] at hp
          rcases ih _ _ _ p hp with hmem | hmem
          · rcases List.mem_append.mp hmem with ha | ha
            · exact Or.inl ha
            · refine Or.inr ?_
              have := dispatch_actions_audit_ids pbs g collab e.event_id tas p ha
              simp [this]
          · exact Or.inr (by simp [hmem])

/-- Unfolding one loop step when evaluation raises. -/
theorem run_once_go_cons_error {pbs : List V2.Playbook} {g : Bool} {collab : V2.Collab}
    {e : V2.Event} {rest : List V2.Event} {window : List String} {total : Nat}
    {audit : List (String × V2.TriggeredAction)} {msg : String}
    (h : V2.evaluate_event pbs e = Except.error msg) :
    V2.run_once_go pbs g collab (e :: rest) window total audit
      = (window, total, audit, Option.some msg) := by
  simp only [V2.run_once_go, h]

/-- Unfolding one loop step when evaluation succeeds. -/
theorem run_once_go_cons_ok {pbs : List V2.Playbook} {g : Bool} {collab : V2.Collab}
    {e : V2.Event} {rest : List V2.Event} {window : List String} {total : Nat}
    {audit : List (String × V2.TriggeredAction)} {tas : List V2.TriggeredAction}
    (h : V2.evaluate_event pbs e = Except.ok tas) :
    V2.run_once_go pbs g collab (e :: rest) window total audit
      = V2.run_once_go pbs g collab rest
          (if e.event_id ∈ window then window else window ++ [e.event_id])
          (total + (V2.dispatch_actions pbs g collab e.event_id tas).1)
          (audit ++ (V2.dispatch_actions pbs g collab e.event_id tas).2) := by
  simp only [V2.run_once_go, h]

/-- The event loop never removes ids from the processed window. -/
theorem run_once_go_window_mono (pbs : List V2.Playbook) (g : Bool) (collab : V2.Collab) :
    ∀ (evs : List V2.Event) (window : List String) (total : Nat)
      (audit : List (String × V2.TriggeredAction)) (x : String), x ∈ window →
      x ∈ (V2.run_once_go pbs g collab evs window total audit).1 := by
  intro evs
  induction evs with
  | nil =>
      intro window total audit x hx
      simpa only [V2.run_once_go] using hx
  | cons e rest ih =>
      intro window total audit x hx
      cases hev : V2.evaluate_event pbs e with
      | error msg =>
          rw [run_once_go_cons_error hev]
          exact hx
      | ok tas =>
          rw [run_once_go_cons_ok hev]
          apply ih
          by_cases hw : e.event_id ∈ window
          · simpa [hw] using hx
          · simp only [if_neg hw]
            exact List.mem_append_left _ hx

/-- When the event loop completes without an exception, every processed
event has its id in the resulting window — also events that triggered
zero actions. -/
theorem run_once_go_window_adds (pbs : List V2.Playbook) (g : Bool) (collab : V2.Collab) :
    ∀ (evs : List V2.Event) (window : List String) (total : Nat)
      (audit : List (String × V2.TriggeredAction)),
      (V2.run_once_go pbs g collab evs window total audit).2.2.2 = Option.none →
      ∀ e ∈ evs, e.event_id ∈ (V2.run_once_go pbs g collab evs window total audit).1 := by
  intro evs
  induction evs with
  | nil => intro window total audit _ e he; exact absurd he (List.not_mem_nil e)
  | cons e rest ih =>
      intro window total audit herr e2 he2
      cases hev : V2.evaluate_event pbs e with
      | error msg =>
          rw [run_once_go_cons_error hev] at herr
          simp at herr
      | ok tas =>
          rw [run_once_go_cons_ok hev] at herr ⊢
          rcases List.mem_cons.mp he2 with h | h
          · subst h
            apply run_once_go_window_mono
            by_cases hw : e2.event_id ∈ window
            · simp [hw]
            · simp [hw]
          · exact ih _ _ _ herr e2 h

/-- The event loop grows the window by at most one id per event. -/
theorem run_once_go_window_len (pbs : List V2.Playbook) (g : Bool) (collab : V2.Collab) :
    ∀ (evs : List V2.Event) (window : List String) (total : Nat)
      (audit : List (String × V2.TriggeredAction)),
      (V2.run_once_go pbs g collab evs window total audit).1.length
        ≤ window.length + evs.length := by
  intro evs
  induction evs with
  | nil => intro window total audit; simp [V2.run_once_go]
  | cons e rest ih =>
      intro window total audit
      cases hev : V2.evaluate_event pbs e with
      | error msg =>
          rw [run_once_go_cons_error hev]
          simp
      | ok tas =>
          rw [run_once_go_cons_ok hev]
          have h2 := ih (if e.event_id ∈ window then window else window ++ [e.event_id])
            (total + (V2.dispatch_actions pbs g collab e.event_id tas).1)
            (audit ++ (V2.dispatch_actions pbs g collab e.event_id tas).2)
          have h3 : (if e.event_id ∈ window then window
              else window ++ [e.event_id]).length ≤ window.length + 1 := by
            by_cases hw : e.event_id ∈ window
            · simp only [if_pos hw]
              omega
            · simp only [if_neg hw, List.length_append, List.length_singleton]
              omega
          simp only [List.length_cons]
          omega

end Orion

namespace Orion

/-- C4: over one scheduler cycle, an event id already present in the
Processed-Event Window is never dispatched again — no audit record for
it is emitted, however often the fetched batch repeats it — and when the
cycle completes without an exception (and the window stays within
capacity, so nothing is evicted), every fetched event has its id in the
resulting window, also when it triggered zero actions. Together the two
parts give at-most-once dispatch across overlapping fetch windows: the
first cycle that processes an id puts it in the window, and every later
cycle ignores it for as long as it stays there. -/
theorem c4_dedup_at_most_once (pbs : List V2.Playbook) (g : Bool) (collab : V2.Collab)
    (enum : List String → List String) (window : List String) (events : List V2.Event) :
    (∀ i : String, i ∈ window →
       ∀ p ∈ (V2.run_once pbs g collab enum window events).audit, p.1 ≠ i)
  ∧ ((V2.run_once pbs g collab enum window events).error = Option.none →
       window.length + events.length ≤ 10000 →
       ∀ e ∈ events, e.event_id ∈ (V2.run_once pbs g collab enum window events).window) := by
  rcases hgo : V2.run_once_go pbs g collab
      (events.filter (fun e => decide (e.event_id ∉ window))) window 0 []
    with ⟨w, n, aud, err⟩
  have haud : (V2.run_once pbs g collab enum window events).audit = aud := by
    simp only [V2.run_once, hgo]
    cases err <;> rfl
  constructor
  · intro i hi p hp hpe
    rw [haud] at hp
    have hmem : p ∈ (V2.run_once_go pbs g collab
        (events.filter (fun e => decide (e.event_id ∉ window))) window 0 []).2.2.1 := by
      rw [hgo]
      exact hp
    rcases run_once_go_audit pbs g collab _ _ _ _ p hmem with h0 | h0
    · exact absurd h0 (List.not_mem_nil p)
    · rcases List.mem_map.mp h0 with ⟨e, hef, hei⟩
      have hnot : e.event_id ∉ window := of_decide_eq_true (List.mem_filter.mp hef).2
      rw [hei, hpe] at hnot
      exact hnot hi
  · intro herr hlen e he
    have herr2 : (V2.run_once pbs g collab enum window events).error = err := by
      simp only [V2.run_once, hgo]
      cases err <;> rfl
    rw [herr2] at herr
    subst herr
    have hwin : (V2.run_once pbs g collab enum window events).window
        = V2.evict_window enum w := by
      simp only [V2.run_once, hgo]
    rw [hwin]
    have hw_len : w.length ≤ window.length + events.length := by
      have h1 := run_once_go_window_len pbs g collab
        (events.filter (fun e => decide (e.event_id ∉ window))) window 0 []
      rw [hgo] at h1
      have h2 : (events.filter (fun e => decide (e.event_id ∉ window))).length
          ≤ events.length := List.length_filter_le _ _
      simp only at h1
      omega
    have hin : e.event_id ∈ w := by
      by_cases hm : e.event_id ∈ window
      · have hmono := run_once_go_window_mono pbs g collab
          (events.filter (fun e => decide (e.event_id ∉ window))) window 0 [] e.event_id hm
        rw [hgo] at hmono
        exact hmono
      · have hf : e ∈ events.filter (fun e => decide (e.event_id ∉ window)) :=
          List.mem_filter.mpr ⟨he, by simpa using hm⟩
        have hadds := run_once_go_window_adds pbs g collab
          (events.filter (fun e => decide (e.event_id ∉ window))) window 0 []
          (by rw [hgo]) e hf
        rw [hgo] at hadds
        exact hadds
    rw [V2.evict_window, if_neg (by omega)]
    exact hin

/-- C4 witness: a fresh `evt-1` event enters the window after one cycle,
and a cycle whose window already holds `evt-1` emits no audit record for
it. -/
theorem c4_dedup_at_most_once_witness :
    "evt-1" ∈ (V2.run_once [] false collab0 (fun l => l) [] [evtC4]).window
  ∧ ("evt-1", taC4) ∉ (V2.run_once [] false collab0 (fun l => l) ["evt-1"] [evtC4]).audit := by
  constructor
  · exact (c4_dedup_at_most_once [] false collab0 (fun l => l) [] [evtC4]).2 rfl
      (by decide) evtC4 (List.mem_singleton.mpr rfl)
  · intro hmem
    exact (c4_dedup_at_most_once [] false collab0 (fun l => l) ["evt-1"] [evtC4]).1 "evt-1"
      (List.mem_singleton.mpr rfl) ("evt-1", taC4) hmem rfl

end Orion

namespace Orion

/-- Every element of the id window is the decorated string of its
insertion index. -/
theorem bigWindow_getElem (i : Nat) (hi : i < bigWindow.length) :
    bigWindow[i] = "e" ++ toString i := by
  simp [bigWindow]

end Orion

namespace Orion

/-- C8 counterexample: eviction does NOT retain the most recently added
ids. The trim keeps the last 5000 entries of an arbitrary enumeration of
the Python set; for the enumeration that lists the set in reverse
insertion order — a legal permutation — the retained entries differ from
the 5000 most recently added ids of the window. -/
theorem c8_eviction_not_recency_cex :
    ¬ (∀ (enum : List String → List String) (w : List String),
        (enum w).Perm w → 10000 < w.length →
        V2.evict_window enum w = w.drop (w.length - 5000)) := by
  intro h
  have hlen : bigWindow.length = 10001 := by simp [bigWindow]
  have h2 := h List.reverse bigWindow (List.reverse_perm bigWindow)
    (by rw [hlen]; norm_num)
  have hev : V2.evict_window List.reverse bigWindow = bigWindow.reverse.drop 5001 := by
    rw [V2.evict_window, if_pos (by rw [hlen]; norm_num), List.length_reverse, hlen]
  rw [hev, hlen] at h2
  norm_num at h2
  have hlen2 : (bigWindow.reverse.drop 5001).length = 5000 := by
    rw [List.length_drop, List.length_reverse, hlen]
  have hb1 : (0:Nat) < (bigWindow.reverse.drop 5001).length := by
    rw [hlen2]
    norm_num
  have e1 := List.getElem_of_eq h2 hb1
  rw [List.getElem_drop, List.getElem_drop, List.getElem_reverse] at e1
  have i1 : bigWindow.length - 1 - (5001 + 0) = 4999 := by rw [hlen]
  have i2 : 4999 < bigWindow.length := by rw [hlen]; norm_num
  have i3 : 5001 + 0 < bigWindow.length := by rw [hlen]; norm_num
  rw [getElem_congr i1] at e1
  rw [bigWindow_getElem 4999 i2, bigWindow_getElem (5001 + 0) i3] at e1
  exact absurd e1 (by decide)

/-- C8 amended: when the window exceeds 10000 ids at the end of a cycle,
eviction keeps exactly 5000 ids and every kept id comes from the window
— the window stays bounded — but which 5000 survive is determined by the
arbitrary enumeration order of the Python set, not by recency (see the
counterexample). -/
theorem c8_eviction_bounded (enum : List String → List String) (w : List String)
    (hperm : (enum w).Perm w) (hlen : 10000 < w.length) :
    (V2.evict_window enum w).length = 5000
  ∧ ∀ x ∈ V2.evict_window enum w, x ∈ w := by
  have hlen2 : (enum w).length = w.length := hperm.length_eq
  constructor
  · rw [V2.evict_window, if_pos hlen, List.length_drop, hlen2]
    omega
  · intro x hx
    rw [V2.evict_window, if_pos hlen] at hx
    exact hperm.mem_iff.mp (List.drop_subset _ _ hx)

/-- C8 witness: the identity enumeration of the 10001-id window leaves
exactly 5000 ids after eviction. -/
theorem c8_eviction_bounded_witness :
    (V2.evict_window (fun l => l) bigWindow).length = 5000 :=
  (c8_eviction_bounded (fun l => l) bigWindow (List.Perm.refl bigWindow)
    (by simp [bigWindow])).1

end Orion
